import Mathlib

/-!
Shallow embedding of the fosscord.js entity-cache and dispatch layer.

Each definition is translated from a function of the repository source
(file and line references in the doc comments).  JavaScript reference
identity is modelled by an allocation counter `ref` carried by every
entity; a JS `Map` is modelled as an association list whose `set`
updates in place (preserving insertion order) and appends new keys;
`undefined`/`null` property values are modelled as `Option.none`.
-/

namespace FC

/-- A raw payload handed to a manager: an identifier plus a record of
string-valued fields (a JS object projected to the fields relevant here). -/
structure Payload where
  id : String
  fields : List (String × String)
deriving Repr, DecidableEq

/-- A cached entity.  `ref` models JS reference identity (the allocation
number of the underlying object); `fields` is the record of fields last
applied. -/
structure Entity where
  ref : Nat
  id : String
  fields : List (String × String)
deriving Repr, DecidableEq

/-- Reading a field of an entity record; the first binding wins, `none`
models a JS `undefined` read. -/
def getField (fs : List (String × String)) (k : String) : Option String :=
  List.lookup k fs

/-- Modelled from the spec: the generic `Entity._patch(rawPayload)` is
abstract in the source (each entity class supplies its own); §3 of the
spec fixes its contract — "overwrites only fields present in the
payload".  Prepending the payload fields makes lookups prefer them while
fields absent from the payload stay visible. -/
def Entity.patchFields (e : Entity) (p : Payload) : Entity :=
  { e with fields := p.fields ++ e.fields }

/-- JS `Map.set`: replace the value in place when the key exists
(position preserved), append otherwise. -/
def mapSet {α : Type} (c : List (String × α)) (k : String) (v : α) :
    List (String × α) :=
  match c with
  | [] => [(k, v)]
  | (k₀, v₀) :: rest =>
    if k₀ = k then (k, v) :: rest else (k₀, v₀) :: mapSet rest k v

/-- State of a `CachedManager`: its cache plus the allocation counter
used to mint fresh entity identities. -/
structure MgrState where
  cache : List (String × Entity)
  nextRef : Nat
deriving Repr, DecidableEq

/-- `CachedManager._add(data, cache = true, { id, extras } = {})`,
src/dist/managers/CachedManager.js lines 40-50:
```
const existing = this.cache.get(id ?? data.id);
if (cache) existing?._patch(data);
if (existing) return existing;
const entry = this.holds ? new this.holds(this.client, data, ...extras) : data;
if (cache) this.cache.set(id ?? entry.id, entry);
return entry;
```
The in-place `_patch` of the cached object is rendered as writing the
patched entity back under the same key with the same `ref`. -/
def addE (st : MgrState) (data : Payload) (cache : Bool)
    (idOverride : Option String) : Entity × MgrState :=
  let key := idOverride.getD data.id
  match List.lookup key st.cache with
  | some existing =>
    if cache then
      let patched := existing.patchFields data
      (patched, { st with cache := mapSet st.cache key patched })
    else
      (existing, st)
  | none =>
    let entry : Entity := { ref := st.nextRef, id := data.id, fields := data.fields }
    if cache then
      (entry,
        { st with cache := mapSet st.cache (idOverride.getD entry.id) entry,
                  nextRef := st.nextRef + 1 })
    else
      (entry, { st with nextRef := st.nextRef + 1 })

/-! ### Thread channels and the thread manager -/

/-- The `thread_metadata` sub-object of a raw thread payload. -/
structure RawThreadMeta where
  locked : Option Bool
  archived : Option Bool
  archive_timestamp : Option Nat
deriving Repr, DecidableEq

/-- A raw thread payload as delivered by the transport (projected to the
properties `ThreadChannel._patch` reads that any claim touches). -/
structure RawThread where
  id : String
  name : Option String
  parent_id : Option String
  owner_id : Option String
  thread_metadata : RawThreadMeta
deriving Repr, DecidableEq

/-- A `ThreadChannel` object.  `ref` models JS reference identity.
Properties are exactly those assigned by `ThreadChannel._patch`
(src/dist/structures/ThreadChannel.js lines 47-119) that some claim
reads; the omitted assignments (`autoArchiveDuration`, `lastMessageID`,
`lastPinTimestamp`, `rateLimitPerUser`, `messageCount`, `memberCount`)
are structurally identical plain copies never read by a claim.
`memberIds` is the cache of the per-thread `ThreadMemberManager`. -/
structure ThreadObj where
  ref : Nat
  id : String
  name : Option String
  parentID : Option String
  locked : Bool
  archived : Option Bool
  ownerID : Option String
  archiveTimestamp : Option Nat
  memberIds : List String
deriving Repr, DecidableEq

/-- `ThreadChannel._patch`, src/dist/structures/ThreadChannel.js lines 47-119:
`this.name = data.name; this.parentID = data.parent_id;
this.locked = data.thread_metadata.locked ?? false;
this.archived = data.thread_metadata.archived;
this.ownerID = data.owner_id;
this.archiveTimestamp = data.thread_metadata.archive_timestamp ? new Date(...).getTime() : null`
(the truthiness test on `archive_timestamp` maps the timestamp `0`,
`null` and `undefined` all to `null`). -/
def ThreadObj.patchT (t : ThreadObj) (d : RawThread) : ThreadObj :=
  { t with
    name := d.name
    parentID := d.parent_id
    locked := d.thread_metadata.locked.getD false
    archived := d.thread_metadata.archived
    ownerID := d.owner_id
    archiveTimestamp :=
      match d.thread_metadata.archive_timestamp with
      | some ts => if ts = 0 then none else some ts
      | none => none }

/-- The `ThreadChannel` constructor (src/dist/structures/ThreadChannel.js
lines 26-46): sets up the object (the `Channel` base stores `data.id`)
then runs `this._patch(data)`. -/
def ThreadObj.ofRaw (ref : Nat) (d : RawThread) : ThreadObj :=
  ThreadObj.patchT
    { ref := ref, id := d.id, name := none, parentID := none, locked := false,
      archived := none, ownerID := none, archiveTimestamp := none,
      memberIds := [] } d

/-- Reading the `parentId` property of a `ThreadChannel`.
`ThreadChannel._patch` assigns `parentID` (src/dist/structures/ThreadChannel.js
line 59) and no code path anywhere in the repository defines a `parentId`
property on the object (the only accessor near it is the getter `parent`,
line 142, which itself reads `this.parentID`), so in JavaScript this
property access evaluates to `undefined`. -/
def ThreadObj.parentIdProp (_ : ThreadObj) : Option String := none

/-- `ThreadManager._add(thread)`, src/dist/managers/ThreadManager.js
lines 35-41: return the cached instance when present (no patch), else
store and return the argument.  Returns the entity and the updated
cache. -/
def threadMgrAdd (c : List (String × ThreadObj)) (t : ThreadObj) :
    ThreadObj × List (String × ThreadObj) :=
  match List.lookup t.id c with
  | some existing => (existing, c)
  | none => (t, mapSet c t.id t)

/-- State of the client-wide `ChannelManager` (cache of channels by id,
plus the allocation counter for fresh channel objects). -/
structure ChannelsState where
  cache : List (String × ThreadObj)
  nextRef : Nat
deriving Repr, DecidableEq

/-- Modelled from the spec: `ChannelManager._add` is not under src/
(only its caller `ThreadManager._mapThreads` is); per §4.2 it follows
the generic add/merge protocol — patch-and-return the existing instance
when the id is cached (skip the patch when `cache` is false), otherwise
construct a fresh `ThreadChannel` (whose constructor and `_patch` are
under src/, embedded above) and store it iff `cache` is true. -/
def channelsAdd (st : ChannelsState) (raw : RawThread) (cache : Bool) :
    ThreadObj × ChannelsState :=
  match List.lookup raw.id st.cache with
  | some existing =>
    if cache then
      let patched := existing.patchT raw
      (patched, { st with cache := mapSet st.cache raw.id patched })
    else
      (existing, st)
  | none =>
    let t := ThreadObj.ofRaw st.nextRef raw
    if cache then
      (t, { st with cache := mapSet st.cache raw.id t, nextRef := st.nextRef + 1 })
    else
      (t, { st with nextRef := st.nextRef + 1 })

/-- The parent channel handed to `_mapThreads` (only its `id` is read). -/
structure Parent where
  id : String
deriving Repr, DecidableEq

/-- An auxiliary thread-member record bundled in a page response; per the
source comment "Discord sends the thread id as id in this object",
`id` is the thread id and `user_id` the member. -/
structure RawMember where
  id : String
  user_id : String
deriving Repr, DecidableEq

/-- A raw page response for a thread-listing endpoint. -/
structure RawThreadsPage where
  threads : List RawThread
  members : List RawMember
  has_more : Option Bool
deriving Repr, DecidableEq

/-- The `reduce` of `ThreadManager._mapThreads`
(src/dist/managers/ThreadManager.js lines 246-251):
```
const thread = client.channels._add(raw, guild ?? parent?.guild, { cache });
if (parent && thread.parentId !== parent.id) return coll;
return coll.set(thread.id, thread);
```
Note the filter reads the `parentId` property of the freshly added
thread (see `ThreadObj.parentIdProp`). -/
def mapThreadsFold (st : ChannelsState) (raws : List RawThread)
    (parent : Option Parent) (cache : Bool)
    (coll : List (String × ThreadObj)) :
    List (String × ThreadObj) × ChannelsState :=
  match raws with
  | [] => (coll, st)
  | raw :: rest =>
    let r := channelsAdd st raw cache
    let coll₁ :=
      match parent with
      | some p =>
        if r.1.parentIdProp ≠ some p.id then coll else mapSet coll r.1.id r.1
      | none => mapSet coll r.1.id r.1
    mapThreadsFold r.2 rest parent cache coll₁

/-- Modelled from the spec: `ThreadMemberManager._add` is not under src/;
per §4.3 step 4 the auxiliary membership record is routed into the
child manager's cache (one member entity per user id). -/
def threadAddMember (t : ThreadObj) (userId : String) : ThreadObj :=
  if userId ∈ t.memberIds then t else { t with memberIds := t.memberIds ++ [userId] }

/-- The member-reconciliation loop of `ThreadManager._mapThreads`
(src/dist/managers/ThreadManager.js lines 253-254):
`for (const rawMember of rawThreads.members)
   client.channels.cache.get(rawMember.id)?.members._add(rawMember);` -/
def reconcileMembers (st : ChannelsState) (ms : List RawMember) : ChannelsState :=
  match ms with
  | [] => st
  | m :: rest =>
    let st₁ :=
      match List.lookup m.id st.cache with
      | some ch => { st with cache := mapSet st.cache m.id (threadAddMember ch m.user_id) }
      | none => st
    reconcileMembers st₁ rest

/-- The value returned by `_mapThreads`. -/
structure MapThreadsResult where
  threads : List (String × ThreadObj)
  hasMore : Bool
deriving Repr, DecidableEq

/-- `ThreadManager._mapThreads(rawThreads, client, { parent, guild, cache })`,
src/dist/managers/ThreadManager.js lines 244-259.  The trailing
`hasMore: rawThreads.has_more ?? false` defaults a `null`/`undefined`
field to `false`. -/
def mapThreads (st : ChannelsState) (page : RawThreadsPage)
    (parent : Option Parent) (cache : Bool) :
    MapThreadsResult × ChannelsState :=
  let r := mapThreadsFold st page.threads parent cache []
  let st₂ := reconcileMembers r.2 page.members
  ({ threads := r.1, hasMore := page.has_more.getD false }, st₂)

/-! ### `ThreadManager.fetchArchived` cursor resolution -/

/-- The `archivedAt` getter (src/dist/structures/ThreadChannel.js
lines 134-136): `this.archiveTimestamp ? new Date(this.archiveTimestamp) : null`
(the truthiness test maps a zero timestamp to `null`). -/
def ThreadObj.archivedAt (t : ThreadObj) : Option Int :=
  match t.archiveTimestamp with
  | some ts => if ts = 0 then none else some (ts : Int)
  | none => none

/-- The `before` argument of `fetchArchived`: a `ThreadChannel`, a string,
or a number (a `Date` object behaves as its numeric timestamp in the
`new Date(...)` coercion and is never snowflake-shaped when stringified,
like a plain number outside the 16-19 digit range). -/
inductive BeforeArg
  | thread (t : ThreadObj)
  | str (s : String)
  | num (n : Int)
deriving Repr, DecidableEq

/-- The test `/^\d{16,19}$/.test(String(before))` of
src/dist/managers/ThreadManager.js line 214. -/
def isSnowflakeStr (s : String) : Bool :=
  16 ≤ s.toList.length && s.toList.length ≤ 19 && s.toList.all Char.isDigit

/-- `Date#toISOString` abstracted: the claims never inspect the format of
the chronological cursor, only whether one (rather than an id, or
nothing) is sent; any injective rendering of the millisecond timestamp
serves. -/
def isoOf (ms : Int) : String := "ISO:" ++ toString ms

/-- Modelled from the spec: `DataManager.resolveId` is not under src/;
§4.2 — accepts "either an id, an already-resolved Entity"; anything
else (here: a number) yields null. -/
def threadResolveId (b : BeforeArg) : Option String :=
  match b with
  | .thread t => some t.id
  | .str s => some s
  | .num _ => none

/-- Modelled from the spec: `DataManager.resolve` is not under src/;
§4.2 — a cache-only lookup accepting an already-resolved Entity or an
id. -/
def threadResolve (cache : List (String × ThreadObj)) (b : BeforeArg) :
    Option ThreadObj :=
  match b with
  | .thread t => some t
  | .str s => List.lookup s cache
  | .num _ => none

/-- `new Date(before).toISOString()` of the `else` branch
(src/dist/managers/ThreadManager.js lines 219-224): a string is parsed
by the host's date parser (supplied as `parseDate`); a number is a
millisecond timestamp, valid within JS's ±8.64e15 range; `none` is the
thrown `RangeError` that the `catch` converts into the `TypeError`. -/
def dateCoerce (b : BeforeArg) (parseDate : String → Option Int) : Option Int :=
  match b with
  | .thread _ => none
  | .str s => parseDate s
  | .num n => if n.natAbs ≤ 8640000000000000 then some n else none

/-- The guard of src/dist/managers/ThreadManager.js line 214:
`before instanceof ThreadChannel || /^\d{16,19}$/.test(String(before))`
(short-circuit: a thread never reaches the regex). -/
def beforeSnowflakeLike (b : BeforeArg) : Bool :=
  match b with
  | .thread _ => true
  | .str s => isSnowflakeStr s
  | .num n => isSnowflakeStr (toString n)

/-- The `before`-cursor resolution of `ThreadManager.fetchArchived`
(src/dist/managers/ThreadManager.js lines 211-229), returning the value
the request's `query.before` receives (`none` = `undefined`), or
`Except.error` for the `TypeError('INVALID_TYPE', 'before', ...)`
thrown before any request:
```
if (typeof before !== 'undefined') {
  if (before instanceof ThreadChannel || /^\d{16,19}$/.test(String(before))) {
    id = this.resolveId(before);
    timestamp = this.resolve(before)?.archivedAt?.toISOString();
  } else {
    try { timestamp = new Date(before).toISOString(); }
    catch { throw new TypeError('INVALID_TYPE', 'before', ...); }
  }
}
... .get({ query: { before: type === 'private' && !fetchAll ? id : timestamp, limit } });
``` -/
def resolveArchivedCursor (cache : List (String × ThreadObj)) (typ : String)
    (fetchAll : Bool) (before : Option BeforeArg)
    (parseDate : String → Option Int) : Except Unit (Option String) :=
  let idTs : Except Unit (Option String × Option String) :=
    match before with
    | none => .ok (none, none)
    | some b =>
      if beforeSnowflakeLike b then
        .ok (threadResolveId b,
             ((threadResolve cache b).bind ThreadObj.archivedAt).map isoOf)
      else
        match dateCoerce b parseDate with
        | some ms => .ok (none, some (isoOf ms))
        | none => .error ()
  idTs.map fun p => if typ = "private" && !fetchAll then p.1 else p.2

/-! ### `ClientPresence` (dispatch router) -/

/-- An activity as supplied by the caller: `name` must be a string (a
missing one is the validation error), `type` may be a number, a
string key into the `ActivityTypes` table, or absent, `url` optional. -/
structure ActivityInput where
  name : Option String
  type : Option (Nat ⊕ String)
  url : Option String
deriving Repr, DecidableEq

/-- An activity entry of the outgoing packet built by `_parse`. -/
structure ActivityPacket where
  type : Option Nat
  name : String
  url : Option String
deriving Repr, DecidableEq

/-- An activity as stored on the local `Presence` (enum-name form, the
form the copy-forward branch of `_parse` converts via `ActivityTypes`). -/
structure StateActivity where
  name : String
  type : String
  url : Option String
deriving Repr, DecidableEq

/-- The `ActivityTypes` table of the constants module (not under src/;
the standard table the repository inherits: PLAYING 0, STREAMING 1,
LISTENING 2, WATCHING 3, CUSTOM_STATUS 4, COMPETING 5); a miss is a JS
`undefined` index read. -/
def activityTypes (s : String) : Option Nat :=
  List.lookup s
    [("PLAYING", 0), ("STREAMING", 1), ("LISTENING", 2), ("WATCHING", 3),
     ("CUSTOM_STATUS", 4), ("COMPETING", 5)]

/-- Inverse of `activityTypes`, used by the modelled `Presence.patch`. -/
def activityTypeName (n : Nat) : Option String :=
  List.lookup n
    [(0, "PLAYING"), (1, "STREAMING"), (2, "LISTENING"), (3, "WATCHING"),
     (4, "CUSTOM_STATUS"), (5, "COMPETING")]

/-- The `shardID` field of the options passed to `ClientPresence.set`:
absent (`undefined`), an array, or a single shard id
(src/dist/structures/ClientPresence.js lines 16-26). -/
inductive ShardTarget
  | all
  | list (ids : List Nat)
  | single (id : Nat)
deriving Repr, DecidableEq

/-- The options object passed to `ClientPresence.set` / `_parse`. -/
structure PresenceInput where
  status : Option String
  since : Option Int
  afk : Option Bool
  activities : Option (List ActivityInput)
  shardID : ShardTarget
deriving Repr, DecidableEq

/-- The packet built by `_parse` and both patched locally and sent. -/
structure Packet where
  activities : List ActivityPacket
  afk : Bool
  since : Option Int
  status : String
deriving Repr, DecidableEq

/-- The local client-presence mirror (the fields `_parse` reads and the
packet overwrites). -/
structure PresenceState where
  status : String
  afk : Bool
  since : Option Int
  activities : List StateActivity
deriving Repr, DecidableEq

/-- One step of the activity loop of `_parse`
(src/dist/structures/ClientPresence.js lines 37-47): a non-string
`name` throws `TypeError('INVALID_TYPE', ...)`; `if (!activity.type)
activity.type = 0` defaults a falsy type (absent, `0`, or the empty
string) to the number 0; a string type is looked up in
`ActivityTypes`. -/
def parseActivity (a : ActivityInput) : Except Unit ActivityPacket :=
  match a.name with
  | none => .error ()
  | some nm =>
    let ty : Option Nat :=
      match a.type with
      | none => some 0
      | some (Sum.inl n) => some n
      | some (Sum.inr s) => if s = "" then some 0 else activityTypes s
    .ok { type := ty, name := nm, url := a.url }

/-- The activity loop, aborting at the first invalid entry (the JS
`throw` propagates out of `_parse`). -/
def parseActivities (l : List ActivityInput) : Except Unit (List ActivityPacket) :=
  match l with
  | [] => .ok []
  | a :: rest => do
    let p ← parseActivity a
    let ps ← parseActivities rest
    .ok (p :: ps)

/-- `ClientPresence._parse({status, since, afk, activities})`,
src/dist/structures/ClientPresence.js lines 29-60.  JS truthiness is
rendered explicitly: `status || this.status` falls through on an absent
or empty status; the copy-forward guard `(status || afk || since)`
is false for an absent/empty status, a non-`true` afk and an
absent/zero since; `activities?.length` is falsy for an absent or empty
array, and `!activities` is false for an empty array (so an explicit
empty array clears the activities). -/
def parsePresence (st : PresenceState) (p : PresenceInput) :
    Except Unit Packet :=
  let afk := p.afk.getD false
  let since := p.since
  let status :=
    match p.status with
    | some s => if s = "" then st.status else s
    | none => st.status
  match p.activities with
  | some l =>
    if l.isEmpty then
      .ok { activities := [], afk := afk, since := since, status := status }
    else
      (parseActivities l).map fun acts =>
        { activities := acts, afk := afk, since := since, status := status }
  | none =>
    let trig : Bool :=
      (match p.status with | some s => !(s = "") | none => false)
      || (p.afk = some true)
      || (match p.since with | some n => !(n = 0) | none => false)
    let acts :=
      if trig && !st.activities.isEmpty then
        st.activities.map fun a =>
          { type := activityTypes a.type, name := a.name, url := a.url }
      else []
    .ok { activities := acts, afk := afk, since := since, status := status }

/-- Modelled from the spec: `Presence.patch` is not under src/; §3 —
"overwrites only fields present in the payload".  The packet built by
`_parse` always carries all four fields, so all four are overwritten;
activity types are stored back in the enum-name form the local mirror
uses. -/
def presencePatch (_st : PresenceState) (pk : Packet) : PresenceState :=
  { status := pk.status, afk := pk.afk, since := pk.since,
    activities := pk.activities.map fun a =>
      { name := a.name, type := (a.type.bind activityTypeName).getD "", url := a.url } }

/-- How a `ClientPresence.set` call fails. -/
inductive DispatchError
  /-- the `TypeError` thrown by `_parse` (a ValidationError), before the
  local patch -/
  | parseError
  /-- the runtime `TypeError` raised when `this.client.ws.shards.get(id)`
  is `undefined` and `.send` is read off it -/
  | sendUndefined
deriving Repr, DecidableEq

/-- Observable outcome of a `ClientPresence.set` call: the state of the
local mirror afterwards, the deliveries made (in order), and the error
raised, if any. -/
structure SetResult where
  state : PresenceState
  sent : List (Nat × Packet)
  error : Option DispatchError
deriving Repr, DecidableEq

/-- The `for (const shardID of presence.shardID)` loop of
src/dist/structures/ClientPresence.js lines 20-22: each listed id is
looked up in the shard registry and sent to; the first id with no live
shard crashes the loop (`.send` of `undefined`), after the earlier
deliveries have already gone out. -/
def sendToList (shards : List Nat) (ids : List Nat) (pk : Packet) :
    List (Nat × Packet) × Option DispatchError :=
  match ids with
  | [] => ([], none)
  | i :: rest =>
    if i ∈ shards then
      let r := sendToList shards rest pk
      ((i, pk) :: r.1, r.2)
    else
      ([], some .sendUndefined)

/-- `ClientPresence.set(presence)`, src/dist/structures/ClientPresence.js
lines 13-28.  `shards` is the registry of live shard ids in
registration order (`this.client.ws.shards`).  The broadcast of the
`undefined`-shardID branch is `WebSocketManager.broadcast`, which is
not under src/ and is modelled from the spec (§4.4 `ALL`): forward the
payload to every currently-registered partition, in registration
order.  Note the local `this.patch(packet)` precedes every dispatch
branch. -/
def setPresence (shards : List Nat) (st : PresenceState) (p : PresenceInput) :
    SetResult :=
  match parsePresence st p with
  | .error _ => { state := st, sent := [], error := some .parseError }
  | .ok pk =>
    let st₁ := presencePatch st pk
    match p.shardID with
    | .all =>
      { state := st₁, sent := shards.map (fun s => (s, pk)), error := none }
    | .list ids =>
      let r := sendToList shards ids pk
      { state := st₁, sent := r.1, error := r.2 }
    | .single i =>
      if i ∈ shards then
        { state := st₁, sent := [(i, pk)], error := none }
      else
        { state := st₁, sent := [], error := some .sendUndefined }

/-! ### Shared error taxonomy and resolvables for effectful operations -/

/-- Errors raised by the effectful manager operations: `validation` is a
`TypeError('INVALID_TYPE', ...)`, `resolution` an `Error` with the
given resolution code, `notFound` the post-fetch `INVITE_NOT_FOUND`. -/
inductive OpError
  | validation (arg : String)
  | resolution (code : String)
  | notFound (code : String)
deriving Repr, DecidableEq

/-- Modelled from the spec: the resolvable union accepted by the
`resolveId`/`resolveID` helpers of managers not under src/
(`GuildChannelManager`, `UserManager`); §4.2 — "accept either an id, an
already-resolved Entity"; anything else resolves to null. -/
inductive Resolvable
  | entity (id : String)
  | idStr (s : String)
  | invalid
deriving Repr, DecidableEq

/-- Modelled from the spec: `resolveId` on a `Resolvable` (§4.2): pure,
never raises, null on failure. -/
def resolvableId (r : Resolvable) : Option String :=
  match r with
  | .entity i => some i
  | .idStr s => some s
  | .invalid => none

/-! ### `StageInstanceManager` -/

/-- A raw stage-instance payload. -/
structure RawStage where
  id : String
  topic : Option String
  privacy_level : Option Nat
  channel_id : Option String
deriving Repr, DecidableEq

/-- A cached `StageInstance`; `ref` models JS reference identity. -/
structure StageEntity where
  ref : Nat
  id : String
  topic : Option String
  privacyLevel : Option Nat
  channelID : Option String
deriving Repr, DecidableEq

/-- Modelled from the spec: `StageInstance._patch` is not under src/;
§3 — "overwrites only fields present in the payload". -/
def StageEntity.patchS (e : StageEntity) (d : RawStage) : StageEntity :=
  { e with
    topic := match d.topic with | some t => some t | none => e.topic
    privacyLevel := match d.privacy_level with | some p => some p | none => e.privacyLevel
    channelID := match d.channel_id with | some c => some c | none => e.channelID }

/-- State of the `StageInstanceManager`. -/
structure StageMgrState where
  cache : List (String × StageEntity)
  nextRef : Nat
deriving Repr, DecidableEq

/-- Modelled from the spec: `BaseManager.add` (this manager's base class
is not under src/) follows the generic add/merge protocol of §4.2,
exactly the `CachedManager._add` shape embedded in `addE`, with
`StageInstance` as the entity class. -/
def stageAdd (st : StageMgrState) (d : RawStage) (cache : Bool) :
    StageEntity × StageMgrState :=
  match List.lookup d.id st.cache with
  | some existing =>
    if cache then
      let patched := existing.patchS d
      (patched, { st with cache := mapSet st.cache d.id patched })
    else
      (existing, st)
  | none =>
    let e : StageEntity :=
      { ref := st.nextRef, id := d.id, topic := d.topic,
        privacyLevel := d.privacy_level, channelID := d.channel_id }
    if cache then
      (e, { st with cache := mapSet st.cache d.id e, nextRef := st.nextRef + 1 })
    else
      (e, { st with nextRef := st.nextRef + 1 })

/-- Options of `StageInstanceManager.create` (`privacyLevel` may be a
number or a `PrivacyLevels` key; its conversion only shapes the request
body and is not read by any claim). -/
structure CreateStageOptions where
  channel : Resolvable
  topic : Option String
  privacyLevel : Option (Nat ⊕ String)
deriving Repr, DecidableEq

/-- `StageInstanceManager.create(options)`,
src/dist/managers/StageInstanceManager.js lines 54-73: a non-object
`options` is a `TypeError`; an unresolvable channel throws
`Error('STAGE_CHANNEL_RESOLVE')` before the POST; otherwise the POST is
issued and the response payload routed through `add`.  Returns the
request trace, the outcome, and the manager state afterwards. -/
def stageCreate (st : StageMgrState) (options : Option CreateStageOptions)
    (response : RawStage) :
    (List String × Except OpError StageEntity) × StageMgrState :=
  match options with
  | none => (([], .error (.validation "options")), st)
  | some o =>
    match resolvableId o.channel with
    | none => (([], .error (.resolution "STAGE_CHANNEL_RESOLVE")), st)
    | some cid =>
      let r := stageAdd st response true
      ((["POST /stage-instances " ++ cid], .ok r.1), r.2)

/-- Options of `StageInstanceManager.edit`. -/
structure EditStageOptions where
  topic : Option String
  privacyLevel : Option (Nat ⊕ String)
deriving Repr, DecidableEq

/-- `StageInstanceManager.edit(channel, options)`,
src/dist/managers/StageInstanceManager.js lines 116-139:
```
if (typeof options !== 'object') throw new TypeError(...);
const channelID = this.guild.channels.resolveID(channel);
if (!channelID) throw new Error('STAGE_CHANNEL_RESOLVE');
const data = yield this.client.api('stage-instances', channelID).patch({...});
if (this.cache.has(data.id)) {
  const clone = this.cache.get(data.id)._clone();
  clone._patch(data);
  return clone;
}
return this.add(data);
```
`StageInstance._clone` is not under src/ and is modelled as upstream
documents it: a fresh instance (new identity) carrying the same field
values, which the manager does not cache. -/
def stageEdit (st : StageMgrState) (channel : Resolvable)
    (options : Option EditStageOptions) (response : RawStage) :
    (List String × Except OpError StageEntity) × StageMgrState :=
  match options with
  | none => (([], .error (.validation "options")), st)
  | some _ =>
    match resolvableId channel with
    | none => (([], .error (.resolution "STAGE_CHANNEL_RESOLVE")), st)
    | some cid =>
      let req := "PATCH /stage-instances/" ++ cid
      match List.lookup response.id st.cache with
      | some cached =>
        let clone : StageEntity := { cached with ref := st.nextRef }
        let patched := clone.patchS response
        (([req], .ok patched), { st with nextRef := st.nextRef + 1 })
      | none =>
        let r := stageAdd st response true
        (([req], .ok r.1), r.2)

/-! ### `ReactionUserManager.remove` -/

/-- `ReactionUserManager.remove(user = this.client.user)`,
src/dist/managers/ReactionUserManager.js lines 63-72: an unresolvable
user throws `Error('REACTION_RESOLVE_USER')` before the DELETE;
otherwise the DELETE is issued (with `@me` substituted for the client's
own id).  Returns the request trace and the outcome. -/
def reactionRemove (clientUserId : String) (user : Option Resolvable) :
    List String × Except OpError Unit :=
  let u := user.getD (.entity clientUserId)
  match resolvableId u with
  | none => ([], .error (.resolution "REACTION_RESOLVE_USER"))
  | some uid =>
    (["DELETE /reactions/" ++ (if uid = clientUserId then "@me" else uid)], .ok ())

/-! ### `GuildInviteManager` -/

/-- A raw invite payload (keyed by `code`; invite payloads carry no
`id`). -/
structure RawInvite where
  code : String
  fields : List (String × String)
deriving Repr, DecidableEq

/-- A cached `Invite`; `ref` models JS reference identity. -/
structure InviteEntity where
  ref : Nat
  code : String
  fields : List (String × String)
deriving Repr, DecidableEq

/-- State of the `GuildInviteManager`. -/
structure InviteMgrState where
  cache : List (String × InviteEntity)
  nextRef : Nat
deriving Repr, DecidableEq

/-- `GuildInviteManager._add(data, cache)` (src/unnamed/part_000
lines 35-37) delegates to `CachedManager._add(data, cache,
{ id: data.code, extras: [this.guild] })` (CachedManager.js
lines 40-50): the cache key is the invite code.  The flag is
`Option Bool` because `fetch()` forwards a possibly-`undefined` flag,
to which `_add`'s default `true` applies.  `Invite._patch` is not under
src/ and is modelled from spec §3 (overwrite fields present in the
payload). -/
def inviteAdd (st : InviteMgrState) (d : RawInvite) (cacheFlag : Option Bool) :
    InviteEntity × InviteMgrState :=
  let cb := cacheFlag.getD true
  match List.lookup d.code st.cache with
  | some existing =>
    if cb then
      let patched := { existing with fields := d.fields ++ existing.fields }
      (patched, { st with cache := mapSet st.cache d.code patched })
    else
      (existing, st)
  | none =>
    let e : InviteEntity := { ref := st.nextRef, code := d.code, fields := d.fields }
    if cb then
      (e, { st with cache := mapSet st.cache d.code e, nextRef := st.nextRef + 1 })
    else
      (e, { st with nextRef := st.nextRef + 1 })

/-- The `data.reduce((col, invite) => col.set(invite.code,
this._add(invite, cache)), new Collection())` of `_fetchMany` /
`_fetchChannelMany` (src/unnamed/part_000 lines 147 and 153). -/
def inviteReduce (st : InviteMgrState) (cacheFlag : Option Bool)
    (data : List RawInvite) (col : List (String × InviteEntity)) :
    List (String × InviteEntity) × InviteMgrState :=
  match data with
  | [] => (col, st)
  | d :: rest =>
    let r := inviteAdd st d cacheFlag
    inviteReduce r.2 cacheFlag rest (mapSet col d.code r.1)

/-- `GuildInviteManager._fetchSingle({code, cache, force = false})`,
src/unnamed/part_000 lines 130-143: a cache hit short-circuits (unless
`force`); otherwise `_fetchMany` issues the guild-invite listing
request, after which a missing code throws
`Error('INVITE_NOT_FOUND')`.  `code` is `Option String` because the
caller on line 128 passes the possibly-null result of
`DataResolver.resolveInviteCode` (a `Map.get(null)` over string keys
misses). -/
def inviteFetchSingle (st : InviteMgrState) (code : Option String)
    (cacheFlag : Option Bool) (force : Bool) (response : List RawInvite) :
    (List String × Except OpError InviteEntity) × InviteMgrState :=
  let hit : Option InviteEntity :=
    if force then none
    else match code with
      | some c => List.lookup c st.cache
      | none => none
  match hit with
  | some e => (([], .ok e), st)
  | none =>
    let r := inviteReduce st cacheFlag response []
    let found : Option InviteEntity :=
      match code with
      | some c => List.lookup c r.1
      | none => none
    match found with
    | some inv => ((["GET /guilds/:guild/invites"], .ok inv), r.2)
    | none => ((["GET /guilds/:guild/invites"], .error (.notFound "INVITE_NOT_FOUND")), r.2)

/-- The argument of `GuildInviteManager.fetch`: nothing (falsy), a
string (code or URL), or an options object
(`hasCacheKey` renders the `'cache' in options` test; an absent
`force` is the `false` default of `_fetchSingle`). -/
inductive FetchInviteArg
  | noArg
  | str (s : String)
  | opts (code : Option String) (channelId : Option Resolvable)
         (hasCacheKey : Bool) (cacheVal : Option Bool) (force : Bool)
deriving Repr, DecidableEq

/-- What a successful `fetch` resolves with. -/
inductive InviteFetchOutcome
  | single (e : InviteEntity)
  | many (col : List (String × InviteEntity))
deriving Repr, DecidableEq

/-- `GuildInviteManager.fetch(options)`, src/unnamed/part_000
lines 108-129.  `rc` is `DataResolver.resolveInviteCode` (not under
src/; supplied as a parameter — see `resolveInviteCodeModel`);
`resolveChannels` is `this.guild.channels.resolveId`; `response` is the
invite list the transport would return for a listing request.  The
`!options.code` test is JS-falsy (absent or empty string). -/
def inviteFetch (rc : String → Option String)
    (resolveChannels : Resolvable → Option String) (st : InviteMgrState)
    (arg : FetchInviteArg) (response : List RawInvite) :
    (List String × Except OpError InviteFetchOutcome) × InviteMgrState :=
  match arg with
  | .noArg =>
    let r := inviteReduce st none response []
    ((["GET /guilds/:guild/invites"], .ok (.many r.1)), r.2)
  | .str s =>
    match rc s with
    | none => (([], .error (.resolution "INVITE_RESOLVE_CODE")), st)
    | some c =>
      let r := inviteFetchSingle st (some c) (some true) false response
      ((r.1.1, r.1.2.map .single), r.2)
  | .opts code channelId hasCacheKey cacheVal force =>
    let codeFalsy : Bool := match code with | none => true | some c => c = ""
    if codeFalsy then
      match channelId with
      | some ch =>
        match resolveChannels ch with
        | none => (([], .error (.resolution "GUILD_CHANNEL_RESOLVE")), st)
        | some cid =>
          let r := inviteReduce st cacheVal response []
          ((["GET /channels/" ++ cid ++ "/invites"], .ok (.many r.1)), r.2)
      | none =>
        if hasCacheKey then
          let r := inviteReduce st cacheVal response []
          ((["GET /guilds/:guild/invites"], .ok (.many r.1)), r.2)
        else
          (([], .error (.resolution "INVITE_RESOLVE_CODE")), st)
    else
      let r := inviteFetchSingle st (rc (code.getD "")) cacheVal force response
      ((r.1.1, r.1.2.map .single), r.2)

/-- Modelled from the spec: `DataResolver.resolveInviteCode` is not
under src/.  §4.2 — a resolvable may be "a secondary representation
(e.g., a URL-embedded code) normalized before lookup", and §7 lists the
invite code among resolvables whose resolution can fail (the repo's own
`fetch` guards `if (!code)`).  Model: the code is the last
slash-separated segment; an empty input, an empty last segment, or
whitespace in the input fails to normalize. -/
def resolveInviteCodeModel (s : String) : Option String :=
  if s.toList = [] ∨ s.toList.contains ' ' then none
  else
    let seg := (s.toList.reverse.takeWhile (fun c => c ≠ '/')).reverse
    if seg = [] then none else some (String.mk seg)

/-- Decidable equality for `Except` outcomes, so concrete runs of the
embedded operations can be checked by `decide`. -/
instance {ε α : Type} [DecidableEq ε] [DecidableEq α] :
    DecidableEq (Except ε α) := fun a b =>
  match a, b with
  | .ok x, .ok y =>
    if h : x = y then .isTrue (by rw [h]) else .isFalse (by simp [h])
  | .error x, .error y =>
    if h : x = y then .isTrue (by rw [h]) else .isFalse (by simp [h])
  | .ok _, .error _ => .isFalse (by simp)
  | .error _, .ok _ => .isFalse (by simp)

/-! ### Helper lemmas on the JS-`Map` model -/

theorem lookup_cons {α : Type} (a : String) (p : String × α) (l : List (String × α)) :
    List.lookup a (p :: l) = if a = p.1 then some p.2 else List.lookup a l := by
  by_cases h : a = p.1
  · subst h
    simp [List.lookup]
  · have hb : (a == p.1) = false := beq_eq_false_iff_ne.mpr h
    simp [List.lookup, hb, h]

theorem mapSet_cons {α : Type} (p : String × α) (l : List (String × α))
    (k : String) (v : α) :
    mapSet (p :: l) k v = if p.1 = k then (k, v) :: l else p :: mapSet l k v := by
  rfl

theorem lookup_mapSet_eq {α : Type} (c : List (String × α)) (k : String) (v : α) :
    List.lookup k (mapSet c k v) = some v := by
  induction c with
  | nil => simp [mapSet, lookup_cons]
  | cons hd tl ih =>
    rw [mapSet_cons]
    by_cases h : hd.1 = k
    · rw [if_pos h, lookup_cons, if_pos rfl]
    · rw [if_neg h, lookup_cons, if_neg (fun e => h e.symm)]
      exact ih

theorem lookup_mapSet_ne {α : Type} (c : List (String × α)) (k k₁ : String)
    (v : α) (h : k₁ ≠ k) :
    List.lookup k₁ (mapSet c k v) = List.lookup k₁ c := by
  induction c with
  | nil => simp [mapSet, lookup_cons, h]
  | cons hd tl ih =>
    rw [mapSet_cons]
    by_cases hh : hd.1 = k
    · rw [if_pos hh, lookup_cons, lookup_cons, if_neg h]
      rw [if_neg (fun e => h (e.trans hh))]
    · rw [if_neg hh, lookup_cons, lookup_cons, ih]

theorem mapSet_of_lookup_none {α : Type} (c : List (String × α)) (k : String)
    (v : α) (h : List.lookup k c = none) :
    mapSet c k v = c ++ [(k, v)] := by
  induction c with
  | nil => rfl
  | cons hd tl ih =>
    rw [lookup_cons] at h
    by_cases hh : k = hd.1
    · simp [hh] at h
    · rw [if_neg hh] at h
      rw [mapSet_cons, if_neg (fun e => hh e.symm), ih h]
      rfl

theorem lookup_append_of_none {α : Type} (c : List (String × α)) (k : String)
    (v : α) (h : List.lookup k c = none) :
    List.lookup k (c ++ [(k, v)]) = some v := by
  induction c with
  | nil => simp [lookup_cons]
  | cons hd tl ih =>
    rw [lookup_cons] at h
    by_cases hh : k = hd.1
    · simp [hh] at h
    · rw [if_neg hh] at h
      rw [List.cons_append, lookup_cons, if_neg hh]
      exact ih h

theorem mapSet_append_self {α : Type} (c : List (String × α)) (k : String)
    (v₁ v₂ : α) (h : List.lookup k c = none) :
    mapSet (c ++ [(k, v₁)]) k v₂ = c ++ [(k, v₂)] := by
  induction c with
  | nil => simp [mapSet]
  | cons hd tl ih =>
    rw [lookup_cons] at h
    by_cases hh : k = hd.1
    · simp [hh] at h
    · rw [if_neg hh] at h
      rw [List.cons_append, mapSet_cons, if_neg (fun e => hh e.symm), ih h]
      rfl

theorem countP_key_eq_zero {α : Type} (c : List (String × α)) (k : String)
    (h : List.lookup k c = none) :
    c.countP (fun pr => pr.1 == k) = 0 := by
  induction c with
  | nil => rfl
  | cons hd tl ih =>
    rw [lookup_cons] at h
    by_cases hh : k = hd.1
    · simp [hh] at h
    · rw [if_neg hh] at h
      have hb : (hd.1 == k) = false := beq_eq_false_iff_ne.mpr (fun e => hh e.symm)
      simp [List.countP_cons, hb, ih h]

theorem lookup_mem {α : Type} (c : List (String × α)) (k : String) (v : α)
    (h : List.lookup k c = some v) : (k, v) ∈ c := by
  induction c with
  | nil => simp [List.lookup] at h
  | cons hd tl ih =>
    rw [lookup_cons] at h
    by_cases hh : k = hd.1
    · rw [if_pos hh] at h
      simp only [Option.some.injEq] at h
      have : (k, v) = hd := by rw [hh, ← h]
      rw [this]
      exact List.mem_cons_self hd tl
    · rw [if_neg hh] at h
      exact List.mem_cons_of_mem hd (ih h)

theorem lookup_append_cases {α : Type} (l₁ l₂ : List (String × α)) (k : String) :
    List.lookup k (l₁ ++ l₂)
      = (List.lookup k l₁).orElse (fun _ => List.lookup k l₂) := by
  induction l₁ with
  | nil => simp
  | cons hd tl ih =>
    rw [List.cons_append, lookup_cons, lookup_cons]
    by_cases hh : k = hd.1
    · simp [hh, Option.orElse]
    · rw [if_neg hh, if_neg hh, ih]

/-! ### Step lemmas for the generic add -/

theorem addE_miss (st : MgrState) (p : Payload)
    (h : List.lookup p.id st.cache = none) :
    addE st p true none
      = (⟨st.nextRef, p.id, p.fields⟩,
         ⟨st.cache ++ [(p.id, ⟨st.nextRef, p.id, p.fields⟩)], st.nextRef + 1⟩) := by
  simp only [addE, Option.getD]
  rw [h]
  simp [mapSet_of_lookup_none st.cache p.id _ h]

theorem addE_hit (st : MgrState) (p : Payload) (e : Entity)
    (h : List.lookup p.id st.cache = some e) :
    addE st p true none
      = (e.patchFields p,
         { st with cache := mapSet st.cache p.id (e.patchFields p) }) := by
  simp only [addE, Option.getD]
  rw [h]
  simp

/-! ### Claim theorems -/

/-- C1: for every identifier, `add(payload1)` with `cache=true` followed
by `add(payload2)` with `cache=true`, both payloads carrying that id,
returns the same Entity instance (same reference) from both calls;
after the second call the instance's fields are `payload2` merged over
`payload1`; the cache holds that instance under the id; and at most one
(here: exactly one) entity per identifier exists in the cache slot. -/
theorem identity_preserving_merge (st : MgrState) (p1 p2 : Payload) (i : String)
    (h1 : p1.id = i) (h2 : p2.id = i)
    (hmiss : List.lookup i st.cache = none) :
    (addE (addE st p1 true none).2 p2 true none).1.ref
        = (addE st p1 true none).1.ref ∧
    List.lookup i (addE (addE st p1 true none).2 p2 true none).2.cache
        = some (addE (addE st p1 true none).2 p2 true none).1 ∧
    (∀ k, getField (addE (addE st p1 true none).2 p2 true none).1.fields k
        = (List.lookup k p2.fields).orElse (fun _ => List.lookup k p1.fields)) ∧
    (addE (addE st p1 true none).2 p2 true none).2.cache.countP
        (fun pr => pr.1 == i) = 1 := by
  have hm1 : List.lookup p1.id st.cache = none := by rw [h1]; exact hmiss
  have E1 : addE st p1 true none
      = (⟨st.nextRef, p1.id, p1.fields⟩,
         ⟨st.cache ++ [(p1.id, ⟨st.nextRef, p1.id, p1.fields⟩)], st.nextRef + 1⟩) :=
    addE_miss st p1 hm1
  have hm2 : List.lookup p2.id
      (st.cache ++ [(p1.id, (⟨st.nextRef, p1.id, p1.fields⟩ : Entity))])
      = some ⟨st.nextRef, p1.id, p1.fields⟩ := by
    rw [h2, ← h1]
    exact lookup_append_of_none st.cache p1.id _ hm1
  have hset : mapSet
      (st.cache ++ [(p1.id, (⟨st.nextRef, p1.id, p1.fields⟩ : Entity))]) p2.id
      (⟨st.nextRef, p1.id, p2.fields ++ p1.fields⟩ : Entity)
      = st.cache ++ [(p1.id, ⟨st.nextRef, p1.id, p2.fields ++ p1.fields⟩)] := by
    rw [h2, ← h1]
    exact mapSet_append_self st.cache p1.id _ _ hm1
  have E2 : addE (addE st p1 true none).2 p2 true none
      = (⟨st.nextRef, p1.id, p2.fields ++ p1.fields⟩,
         ⟨st.cache ++ [(p1.id, ⟨st.nextRef, p1.id, p2.fields ++ p1.fields⟩)],
          st.nextRef + 1⟩) := by
    rw [E1, addE_hit _ p2 _ hm2]
    simp only [Entity.patchFields]
    rw [hset]
  rw [E2, E1]
  refine ⟨rfl, ?_, ?_, ?_⟩
  · rw [← h1]
    exact lookup_append_of_none st.cache p1.id _ hm1
  · intro k
    exact lookup_append_cases p2.fields p1.fields k
  · rw [List.countP_append, countP_key_eq_zero st.cache i hmiss]
    have hb : ((p1.id, (⟨st.nextRef, p1.id, p2.fields ++ p1.fields⟩ : Entity)).1 == i)
        = true := by rw [h1]; simp
    simp [List.countP_cons, hb]

/-- C1 witness: the theorem applied at the spec's own concrete scenario
(empty cache, two payloads for id "1"). -/
theorem identity_preserving_merge_witness :
    List.lookup "1" (([] : List (String × Entity))) = none ∧
    (addE (addE ⟨[], 0⟩ ⟨"1", [("name", "a")]⟩ true none).2
        ⟨"1", [("name", "b")]⟩ true none).1.ref
      = (addE ⟨[], 0⟩ ⟨"1", [("name", "a")]⟩ true none).1.ref ∧
    (addE (addE ⟨[], 0⟩ ⟨"1", [("name", "a")]⟩ true none).2
        ⟨"1", [("name", "b")]⟩ true none).2.cache.countP
        (fun pr => pr.1 == "1") = 1 :=
  ⟨rfl,
   (identity_preserving_merge ⟨[], 0⟩ ⟨"1", [("name", "a")]⟩
      ⟨"1", [("name", "b")]⟩ "1" rfl rfl rfl).1,
   (identity_preserving_merge ⟨[], 0⟩ ⟨"1", [("name", "a")]⟩
      ⟨"1", [("name", "b")]⟩ "1" rfl rfl rfl).2.2.2⟩

/-- C7: `add(payload, cache=false)` for an identifier already cached
returns the existing cached instance and leaves the whole manager state
(in particular that instance's fields) untouched; the patch is
skipped. -/
theorem nocache_add_returns_existing (st : MgrState) (p : Payload) (e : Entity)
    (he : List.lookup p.id st.cache = some e) :
    addE st p false none = (e, st) := by
  simp [addE, he]

/-- C7 witness: a cached entity for id "1" with field `name = a`; a
non-caching add of a payload carrying `name = b` returns the cached
instance and changes nothing. -/
theorem nocache_add_returns_existing_witness :
    List.lookup "1" [("1", (⟨0, "1", [("name", "a")]⟩ : Entity))]
        = some ⟨0, "1", [("name", "a")]⟩ ∧
    addE ⟨[("1", ⟨0, "1", [("name", "a")]⟩)], 1⟩ ⟨"1", [("name", "b")]⟩ false none
      = (⟨0, "1", [("name", "a")]⟩, ⟨[("1", ⟨0, "1", [("name", "a")]⟩)], 1⟩) :=
  ⟨by decide,
   nocache_add_returns_existing ⟨[("1", ⟨0, "1", [("name", "a")]⟩)], 1⟩
     ⟨"1", [("name", "b")]⟩ ⟨0, "1", [("name", "a")]⟩ (by decide)⟩

/-- C9: `ThreadManager._add` returns the cached instance unchanged when
the id is present — the argument (and its newer fields) is discarded
and no patch happens; only when the id is absent is the argument stored
and returned. -/
theorem thread_add_no_merge (c : List (String × ThreadObj)) (t : ThreadObj) :
    (∀ e, List.lookup t.id c = some e → threadMgrAdd c t = (e, c)) ∧
    (List.lookup t.id c = none → threadMgrAdd c t = (t, mapSet c t.id t)) := by
  constructor
  · intro e he
    simp [threadMgrAdd, he]
  · intro he
    simp [threadMgrAdd, he]

/-- C9 witness: a cached thread for id "1" and an argument thread with
the same id but different fields: the cached one comes back and the
cache is unchanged; on an empty cache the argument is stored. -/
theorem thread_add_no_merge_witness :
    threadMgrAdd [("1", ⟨0, "1", some "old", none, false, none, none, none, []⟩)]
        ⟨7, "1", some "new", some "p", true, some true, none, none, []⟩
      = (⟨0, "1", some "old", none, false, none, none, none, []⟩,
         [("1", ⟨0, "1", some "old", none, false, none, none, none, []⟩)]) ∧
    threadMgrAdd [] ⟨7, "1", some "new", some "p", true, some true, none, none, []⟩
      = (⟨7, "1", some "new", some "p", true, some true, none, none, []⟩,
         [("1", ⟨7, "1", some "new", some "p", true, some true, none, none, []⟩)]) :=
  ⟨(thread_add_no_merge
      [("1", ⟨0, "1", some "old", none, false, none, none, none, []⟩)]
      ⟨7, "1", some "new", some "p", true, some true, none, none, []⟩).1
      ⟨0, "1", some "old", none, false, none, none, none, []⟩ (by decide),
   (thread_add_no_merge []
      ⟨7, "1", some "new", some "p", true, some true, none, none, []⟩).2 (by decide)⟩

/-- C8: the `hasMore` flag returned by `_mapThreads` equals the
response's `has_more` field verbatim when present and is `false` when
the field is absent (`null`/`undefined`, both rendered `none`). -/
theorem hasmore_propagation (st : ChannelsState) (page : RawThreadsPage)
    (parent : Option Parent) (cache : Bool) :
    (∀ b, page.has_more = some b →
        (mapThreads st page parent cache).1.hasMore = b) ∧
    (page.has_more = none →
        (mapThreads st page parent cache).1.hasMore = false) := by
  constructor
  · intro b hb
    simp [mapThreads, hb]
  · intro hb
    simp [mapThreads, hb]

/-- C8 witness: a page carrying `has_more: true` and one carrying no
`has_more` field. -/
theorem hasmore_propagation_witness :
    (mapThreads ⟨[], 0⟩ ⟨[], [], some true⟩ none true).1.hasMore = true ∧
    (mapThreads ⟨[], 0⟩ ⟨[], [], none⟩ none true).1.hasMore = false :=
  ⟨(hasmore_propagation ⟨[], 0⟩ ⟨[], [], some true⟩ none true).1 true rfl,
   (hasmore_propagation ⟨[], 0⟩ ⟨[], [], none⟩ none true).2 rfl⟩

/-- With a parent supplied, the fold of `_mapThreads` never keeps an
item: the filter compares the (never assigned) `parentId` property,
i.e. `undefined`, against the parent's id. -/
theorem mapThreadsFold_parent_keeps_none (raws : List RawThread)
    (p : Parent) (cache : Bool) :
    ∀ st coll, (mapThreadsFold st raws (some p) cache coll).1 = coll := by
  induction raws with
  | nil => intro st coll; rfl
  | cons raw rest ih =>
    intro st coll
    simp only [mapThreadsFold, ThreadObj.parentIdProp]
    rw [if_pos (by simp)]
    exact ih _ _

/-- C5 (code bug): the returned items map is empty for *every* page
whenever a parent scope is given — including a response whose single
thread belongs exactly to the expected parent (the concrete conjunct:
its `parent_id` equals the parent's id, the add into the owning
channels cache did happen, yet the thread is missing from the returned
map).  Cause: the filter in `_mapThreads` reads `thread.parentId` while
`ThreadChannel._patch` assigns `parentID`. -/
theorem parent_filter_excludes_matching_thread :
    (∀ st page p cache, (mapThreads st page (some p) cache).1.threads = []) ∧
    (mapThreads ⟨[], 0⟩
        ⟨[⟨"100000000000000001", some "food-talk", some "200000000000000002",
           none, ⟨none, some true, none⟩⟩], [], some false⟩
        (some ⟨"200000000000000002"⟩) true).1.threads = [] ∧
    (List.lookup "100000000000000001"
      (mapThreads ⟨[], 0⟩
        ⟨[⟨"100000000000000001", some "food-talk", some "200000000000000002",
           none, ⟨none, some true, none⟩⟩], [], some false⟩
        (some ⟨"200000000000000002"⟩) true).2.cache).isSome = true := by
  refine ⟨?_, by decide, by decide⟩
  intro st page p cache
  simp only [mapThreads]
  exact mapThreadsFold_parent_keeps_none page.threads p cache st []

/-- C6 counterexample: `type = 'private'`, `fetchAll = false`, and a
`before` that is a plain (13-digit) numeric timestamp — a value that
resolves to no cached entity (the thread cache is empty, and
`resolve` of a number is null anyway).  The claim requires a
`ValidationError` before any request; the code instead proceeds and
sends the request with an `undefined` `before` cursor (`.ok none`). -/
theorem archived_cursor_counterexample :
    threadResolve [] (.num 1609459200000) = none ∧
    resolveArchivedCursor [] "private" false (some (.num 1609459200000))
        (fun _ => none) = .ok none :=
  ⟨rfl, by decide⟩

/-- C6 (amended): with `type = 'private'` and `fetchAll = false`, only a
`before` that is neither a thread, nor snowflake-shaped, nor
date-coercible raises the `TypeError` before the request; a
date-coercible `before` is *not* rejected — the request is sent with an
`undefined` identity cursor; and a snowflake-shaped string is passed as
the identity cursor whether or not it resolves to a cached entity. -/
theorem archived_cursor_amended (cache : List (String × ThreadObj))
    (parseDate : String → Option Int) (b : BeforeArg) :
    (∀ ms, beforeSnowflakeLike b = false → dateCoerce b parseDate = some ms →
        resolveArchivedCursor cache "private" false (some b) parseDate
          = .ok none) ∧
    (beforeSnowflakeLike b = false → dateCoerce b parseDate = none →
        resolveArchivedCursor cache "private" false (some b) parseDate
          = .error ()) ∧
    (∀ s, b = .str s → beforeSnowflakeLike b = true →
        resolveArchivedCursor cache "private" false (some b) parseDate
          = .ok (some s)) := by
  refine ⟨?_, ?_, ?_⟩
  · intro ms hsf hdc
    simp [resolveArchivedCursor, hsf, hdc, Except.map]
  · intro hsf hdc
    simp [resolveArchivedCursor, hsf, hdc, Except.map]
  · intro s hb hsf
    subst hb
    simp [resolveArchivedCursor, hsf, threadResolveId, Except.map]

/-- C6 witness: the three amended clauses at concrete inputs — a small
numeric timestamp (request proceeds, cursor `undefined`), an unparsable
string (`TypeError` before the request), and a snowflake-shaped string
absent from the cache (passed through as the identity cursor). -/
theorem archived_cursor_witness :
    resolveArchivedCursor [] "private" false (some (.num 99)) (fun _ => none)
      = .ok none ∧
    resolveArchivedCursor [] "private" false (some (.str "no-date"))
      (fun _ => none) = .error () ∧
    resolveArchivedCursor [] "private" false
      (some (.str "1000000000000000000")) (fun _ => none)
      = .ok (some "1000000000000000000") :=
  ⟨(archived_cursor_amended [] (fun _ => none) (.num 99)).1 99
      (by decide) (by decide),
   (archived_cursor_amended [] (fun _ => none) (.str "no-date")).2.1
      (by decide) rfl,
   (archived_cursor_amended [] (fun _ => none)
      (.str "1000000000000000000")).2.2 "1000000000000000000" rfl (by decide)⟩

/-- The shard loop when every listed id has a live shard: each id is
sent to, in list order, and no error is raised. -/
theorem sendToList_all_registered (shards : List Nat) (ids : List Nat)
    (pk : Packet) (h : ∀ i ∈ ids, i ∈ shards) :
    sendToList shards ids pk = (ids.map (fun i => (i, pk)), none) := by
  induction ids with
  | nil => rfl
  | cons i rest ih =>
    have hi : i ∈ shards := h i (List.mem_cons_self i rest)
    simp only [sendToList, if_pos hi]
    rw [ih (fun j hj => h j (List.mem_cons_of_mem i hj))]
    rfl

/-- The shard loop when a listed id has no live shard: the registered
prefix before it is delivered to, then the loop crashes. -/
theorem sendToList_break (shards : List Nat) (pre : List Nat) (z : Nat)
    (post : List Nat) (pk : Packet) (hpre : ∀ i ∈ pre, i ∈ shards)
    (hz : z ∉ shards) :
    sendToList shards (pre ++ z :: post) pk
      = (pre.map (fun i => (i, pk)), some .sendUndefined) := by
  induction pre with
  | nil =>
    simp only [List.nil_append, sendToList, if_neg hz]
    rfl
  | cons i rest ih =>
    have hi : i ∈ shards := hpre i (List.mem_cons_self i rest)
    simp only [List.cons_append, sendToList, if_pos hi, List.append_eq]
    rw [ih (fun j hj => hpre j (List.mem_cons_of_mem i hj))]
    rfl

/-- C2 (amended): with the packet `_parse` produced, (a) an absent
`shardID` broadcasts to every registered shard, in registration order,
and — the sent list mirroring a duplicate-free registry without
duplicates — exactly once each; (b) a list of registered ids is delivered to exactly those
ids, in order, with no error; (c) a single unregistered id raises (a
runtime `TypeError` from the `undefined` shard handle, not a library
`ResolutionError`) and delivers to nothing; (d) a list containing an
unregistered id raises the same way but *after* delivering to the
registered ids preceding it. -/
theorem dispatch_amended (shards : List Nat) (st : PresenceState)
    (p : PresenceInput) (pk : Packet)
    (hpk : parsePresence st p = .ok pk) :
    (p.shardID = .all →
       (setPresence shards st p).sent = shards.map (fun s => (s, pk)) ∧
       (shards.Nodup → (setPresence shards st p).sent.Nodup) ∧
       (∀ s ∈ shards, (s, pk) ∈ (setPresence shards st p).sent)) ∧
    (∀ ids, p.shardID = .list ids → (∀ i ∈ ids, i ∈ shards) →
       (setPresence shards st p).sent = ids.map (fun i => (i, pk)) ∧
       (setPresence shards st p).error = none) ∧
    (∀ z, p.shardID = .single z → z ∉ shards →
       (setPresence shards st p).sent = [] ∧
       (setPresence shards st p).error = some .sendUndefined) ∧
    (∀ pre z post, p.shardID = .list (pre ++ z :: post) →
       (∀ i ∈ pre, i ∈ shards) → z ∉ shards →
       (setPresence shards st p).sent = pre.map (fun i => (i, pk)) ∧
       (setPresence shards st p).error = some .sendUndefined) := by
  refine ⟨?_, ?_, ?_, ?_⟩
  · intro hall
    have hinj : Function.Injective (fun s : Nat => (s, pk)) :=
      fun a b hab => ((Prod.mk.injEq ..).mp hab).1
    refine ⟨?_, ?_, ?_⟩
    · simp [setPresence, hpk, hall]
    · intro hnd
      simp only [setPresence, hpk, hall]
      exact hnd.map hinj
    · intro s hs
      simp only [setPresence, hpk, hall]
      exact List.mem_map_of_mem _ hs
  · intro ids hl hreg
    simp only [setPresence, hpk, hl]
    rw [sendToList_all_registered shards ids pk hreg]
    exact ⟨rfl, rfl⟩
  · intro z hz hnm
    simp only [setPresence, hpk, hz]
    rw [if_neg hnm]
    exact ⟨rfl, rfl⟩
  · intro pre z post hl hpre hz
    simp only [setPresence, hpk, hl]
    rw [sendToList_break shards pre z post pk hpre hz]
    exact ⟨rfl, rfl⟩

/-- C2 counterexample: registry holds shard 1 only; `shardID: [1, 2]`.
The claim requires that a target list containing the unregistered
partition 2 raise a `ResolutionError` and deliver to *no* partition;
the code delivers the packet to partition 1 before crashing on 2. -/
theorem dispatch_counterexample :
    (setPresence [1] ⟨"online", false, none, []⟩
        ⟨some "dnd", none, none, none, .list [1, 2]⟩).error
      = some .sendUndefined ∧
    (setPresence [1] ⟨"online", false, none, []⟩
        ⟨some "dnd", none, none, none, .list [1, 2]⟩).sent
      = [(1, ⟨[], false, none, "dnd"⟩)] := by
  exact ⟨by decide, by decide⟩

/-- C2 witness: the four amended clauses at concrete inputs over the
registry `[1, 2]` (broadcast; the list `[2, 1]`; the single
unregistered shard 5; the list `[1, 5]` delivering to 1 then
crashing). -/
theorem dispatch_witness :
    (setPresence [1, 2] ⟨"online", false, none, []⟩
        ⟨some "dnd", none, none, none, .all⟩).sent
      = [(1, ⟨[], false, none, "dnd"⟩), (2, ⟨[], false, none, "dnd"⟩)] ∧
    (setPresence [1, 2] ⟨"online", false, none, []⟩
        ⟨some "dnd", none, none, none, .list [2, 1]⟩).sent
      = [(2, ⟨[], false, none, "dnd"⟩), (1, ⟨[], false, none, "dnd"⟩)] ∧
    (setPresence [1, 2] ⟨"online", false, none, []⟩
        ⟨some "dnd", none, none, none, .single 5⟩).sent = [] ∧
    (setPresence [1, 2] ⟨"online", false, none, []⟩
        ⟨some "dnd", none, none, none, .list [1, 5]⟩).sent
      = [(1, ⟨[], false, none, "dnd"⟩)] :=
  ⟨((dispatch_amended [1, 2] ⟨"online", false, none, []⟩
      ⟨some "dnd", none, none, none, .all⟩
      ⟨[], false, none, "dnd"⟩ (by decide)).1 rfl).1,
   ((dispatch_amended [1, 2] ⟨"online", false, none, []⟩
      ⟨some "dnd", none, none, none, .list [2, 1]⟩
      ⟨[], false, none, "dnd"⟩ (by decide)).2.1 [2, 1] rfl (by decide)).1,
   ((dispatch_amended [1, 2] ⟨"online", false, none, []⟩
      ⟨some "dnd", none, none, none, .single 5⟩
      ⟨[], false, none, "dnd"⟩ (by decide)).2.2.1 5 rfl (by decide)).1,
   ((dispatch_amended [1, 2] ⟨"online", false, none, []⟩
      ⟨some "dnd", none, none, none, .list [1, 5]⟩
      ⟨[], false, none, "dnd"⟩ (by decide)).2.2.2 [1] 5 [] rfl
      (by decide) (by decide)).1⟩

/-- C3 (amended): `set` patches the local mirror *before* dispatching:
a `_parse` validation failure does leave the state untouched (and
delivers nothing), but whenever `_parse` succeeds the local mirror is
patched with the packet regardless of the dispatch outcome — in
particular it is already mutated when shard resolution fails. -/
theorem presence_patch_before_dispatch (shards : List Nat)
    (st : PresenceState) (p : PresenceInput) :
    (parsePresence st p = .error () →
       setPresence shards st p = ⟨st, [], some .parseError⟩) ∧
    (∀ pk, parsePresence st p = .ok pk →
       (setPresence shards st p).state = presencePatch st pk) := by
  constructor
  · intro h
    simp [setPresence, h]
  · intro pk h
    simp only [setPresence, h]
    cases p.shardID with
    | all => rfl
    | list ids => rfl
    | single i =>
      simp only []
      by_cases hi : i ∈ shards
      · rw [if_pos hi]
      · rw [if_neg hi]

/-- C3 counterexample: registry holds shard 1 only; `set({status:
'dnd', shardID: 2})` fails resolution and delivers nothing — yet the
local mirror no longer equals its prior state (its status is already
"dnd").  The claim requires the local mirror be left exactly as it
was. -/
theorem presence_counterexample :
    (setPresence [1] ⟨"online", false, none, []⟩
        ⟨some "dnd", none, none, none, .single 2⟩).error
      = some .sendUndefined ∧
    (setPresence [1] ⟨"online", false, none, []⟩
        ⟨some "dnd", none, none, none, .single 2⟩).sent = [] ∧
    (setPresence [1] ⟨"online", false, none, []⟩
        ⟨some "dnd", none, none, none, .single 2⟩).state
      ≠ ⟨"online", false, none, []⟩ := by
  exact ⟨by decide, by decide, by decide⟩

/-- C3 witness: both amended clauses at concrete inputs — an invalid
activity (missing name) leaves the state untouched; a successful parse
patches the state even though the single target shard 2 is not
registered. -/
theorem presence_patch_witness :
    setPresence [1] ⟨"online", false, none, []⟩
        ⟨some "dnd", none, none,
         some [⟨none, none, none⟩], .single 2⟩
      = ⟨⟨"online", false, none, []⟩, [], some .parseError⟩ ∧
    (setPresence [1] ⟨"online", false, none, []⟩
        ⟨some "dnd", none, none, none, .single 2⟩).state
      = presencePatch ⟨"online", false, none, []⟩ ⟨[], false, none, "dnd"⟩ :=
  ⟨(presence_patch_before_dispatch [1] ⟨"online", false, none, []⟩
      ⟨some "dnd", none, none, some [⟨none, none, none⟩], .single 2⟩).1
      (by decide),
   (presence_patch_before_dispatch [1] ⟨"online", false, none, []⟩
      ⟨some "dnd", none, none, none, .single 2⟩).2
      ⟨[], false, none, "dnd"⟩ (by decide)⟩

/-- C4 (amended): stage-instance create, reaction-user remove, and the
string form of the invite fetch all raise their resolution error with
an empty request trace (before any remote call, state untouched); but
the object form of the invite fetch with a non-empty code that fails to
normalize does *not* raise beforehand — it issues the guild invite-list
request and only afterwards rejects with `INVITE_NOT_FOUND` (the listed
request never embeds the unresolved identifier, which is only used as a
lookup key on the response). -/
theorem resolution_before_network_amended :
    (∀ (st : StageMgrState) (o : CreateStageOptions) (d : RawStage),
        resolvableId o.channel = none →
        stageCreate st (some o) d
          = (([], .error (.resolution "STAGE_CHANNEL_RESOLVE")), st)) ∧
    (∀ (cuid : String) (u : Resolvable), resolvableId u = none →
        reactionRemove cuid (some u)
          = ([], .error (.resolution "REACTION_RESOLVE_USER"))) ∧
    (∀ (rc : String → Option String) (resCh : Resolvable → Option String)
        (st : InviteMgrState) (s : String) (resp : List RawInvite),
        rc s = none →
        inviteFetch rc resCh st (.str s) resp
          = (([], .error (.resolution "INVITE_RESOLVE_CODE")), st)) ∧
    (∀ (rc : String → Option String) (resCh : Resolvable → Option String)
        (st : InviteMgrState) (c : String) (chId : Option Resolvable)
        (hck : Bool) (cv : Option Bool) (f : Bool) (resp : List RawInvite),
        rc c = none → c ≠ "" →
        inviteFetch rc resCh st (.opts (some c) chId hck cv f) resp
          = ((["GET /guilds/:guild/invites"],
              .error (.notFound "INVITE_NOT_FOUND")),
             (inviteReduce st cv resp []).2)) := by
  refine ⟨?_, ?_, ?_, ?_⟩
  · intro st o d h
    simp [stageCreate, h]
  · intro cuid u h
    simp [reactionRemove, h]
  · intro rc resCh st s resp h
    simp [inviteFetch, h]
  · intro rc resCh st c chId hck cv f resp hrc hc
    simp only [inviteFetch, hrc]
    rw [if_neg (by simp [hc])]
    cases f <;> simp [inviteFetchSingle, hrc, Except.map]

/-- C4 counterexample: `guild.invites.fetch({ code: 'bad code' })` — a
code the (spec-modelled) normalizer cannot resolve.  The claim requires
a synchronous `ResolutionError` before any remote call; instead the
operation issues the guild invite-list request and rejects with
`INVITE_NOT_FOUND` only after it. -/
theorem resolution_before_network_counterexample :
    resolveInviteCodeModel "bad code" = none ∧
    (inviteFetch resolveInviteCodeModel resolvableId ⟨[], 0⟩
        (.opts (some "bad code") none false none false) []).1
      = (["GET /guilds/:guild/invites"],
         .error (.notFound "INVITE_NOT_FOUND")) := by
  exact ⟨by decide, by decide⟩

/-- C4 witness: the four amended clauses at concrete inputs. -/
theorem resolution_before_network_witness :
    stageCreate ⟨[], 0⟩ (some ⟨.invalid, some "topic", none⟩)
        ⟨"s1", some "topic", none, some "ch"⟩
      = (([], .error (.resolution "STAGE_CHANNEL_RESOLVE")), ⟨[], 0⟩) ∧
    reactionRemove "me" (some .invalid)
      = ([], .error (.resolution "REACTION_RESOLVE_USER")) ∧
    inviteFetch resolveInviteCodeModel resolvableId ⟨[], 0⟩ (.str "") []
      = (([], .error (.resolution "INVITE_RESOLVE_CODE")), ⟨[], 0⟩) ∧
    inviteFetch resolveInviteCodeModel resolvableId ⟨[], 0⟩
        (.opts (some "bad code") none false none false) []
      = ((["GET /guilds/:guild/invites"],
          .error (.notFound "INVITE_NOT_FOUND")),
         (inviteReduce ⟨[], 0⟩ none [] []).2) :=
  ⟨resolution_before_network_amended.1 ⟨[], 0⟩
      ⟨.invalid, some "topic", none⟩ ⟨"s1", some "topic", none, some "ch"⟩ rfl,
   resolution_before_network_amended.2.1 "me" .invalid rfl,
   resolution_before_network_amended.2.2.1 resolveInviteCodeModel
      resolvableId ⟨[], 0⟩ "" [] (by decide),
   resolution_before_network_amended.2.2.2 resolveInviteCodeModel
      resolvableId ⟨[], 0⟩ "bad code" none false none false [] (by decide)
      (by decide)⟩

/-- C10: when the id of the PATCH response is cached, `edit` returns a
fresh clone (new identity, minted from the allocation counter) carrying
the cached instance's fields patched with the response, and the cache
itself — entry, identity and fields — is unchanged; when the id is not
cached, the response payload is routed through `add`. -/
theorem stage_edit_clone_semantics (st : StageMgrState) (cid : String)
    (o : EditStageOptions) (d : RawStage)
    (hwf : ∀ pr ∈ st.cache, pr.2.ref < st.nextRef) :
    (∀ c, List.lookup d.id st.cache = some c →
       stageEdit st (.idStr cid) (some o) d
         = ((["PATCH /stage-instances/" ++ cid],
             .ok (StageEntity.patchS { c with ref := st.nextRef } d)),
            { st with nextRef := st.nextRef + 1 }) ∧
       (StageEntity.patchS { c with ref := st.nextRef } d).ref ≠ c.ref ∧
       List.lookup d.id ({ st with nextRef := st.nextRef + 1 } : StageMgrState).cache
         = some c) ∧
    (List.lookup d.id st.cache = none →
       stageEdit st (.idStr cid) (some o) d
         = ((["PATCH /stage-instances/" ++ cid], .ok (stageAdd st d true).1),
            (stageAdd st d true).2)) := by
  constructor
  · intro c hc
    refine ⟨?_, ?_, hc⟩
    · simp [stageEdit, resolvableId, hc]
    · have hmem : (d.id, c) ∈ st.cache := lookup_mem st.cache d.id c hc
      have hlt : c.ref < st.nextRef := hwf (d.id, c) hmem
      simp only [StageEntity.patchS]
      exact fun e => absurd (e ▸ hlt) (lt_irrefl _)
  · intro hc
    simp [stageEdit, resolvableId, hc]

/-- C10 witness: a manager caching stage instance "s1" (topic "old");
an edit whose response carries topic "new" returns a fresh clone with
the new topic while the cached instance keeps identity 0 and topic
"old"; on an empty cache the response goes through `add`. -/
theorem stage_edit_clone_witness :
    stageEdit ⟨[("s1", ⟨0, "s1", some "old", none, some "ch"⟩)], 1⟩
        (.idStr "ch") (some ⟨some "new", none⟩) ⟨"s1", some "new", none, none⟩
      = ((["PATCH /stage-instances/ch"],
          .ok ⟨1, "s1", some "new", none, some "ch"⟩),
         ⟨[("s1", ⟨0, "s1", some "old", none, some "ch"⟩)], 2⟩) ∧
    stageEdit ⟨[], 0⟩ (.idStr "ch") (some ⟨some "new", none⟩)
        ⟨"s1", some "new", none, none⟩
      = ((["PATCH /stage-instances/ch"],
          .ok (stageAdd ⟨[], 0⟩ ⟨"s1", some "new", none, none⟩ true).1),
         (stageAdd ⟨[], 0⟩ ⟨"s1", some "new", none, none⟩ true).2) :=
  ⟨((stage_edit_clone_semantics
      ⟨[("s1", ⟨0, "s1", some "old", none, some "ch"⟩)], 1⟩ "ch"
      ⟨some "new", none⟩ ⟨"s1", some "new", none, none⟩ (by decide)).1
      ⟨0, "s1", some "old", none, some "ch"⟩ (by decide)).1,
   (stage_edit_clone_semantics ⟨[], 0⟩ "ch" ⟨some "new", none⟩
      ⟨"s1", some "new", none, none⟩ (by simp)).2 (by decide)⟩

end FC
